import Mathlib

/-!
Shallow embedding of the legal-ai-assistant repository (Python) in Lean 4.

External effects are made explicit:
* calls to external providers (chat completion, HTTP POST to the backend,
  vector similarity search) are recorded in a trace of type List Call;
* fallible external calls are oracle parameters returning Except String α,
  where an error value models a raised Python exception;
* the flat-file state (users.json, remembered_user.json) is an explicit FS
  record threaded through the handlers;
* bcrypt hashing and verification are oracle parameters hashpw / checkpw;
* Python string primitives (strip, lower, slicing, substring test, isdigit,
  title) are modelled by executable functions over the character list of the
  string, so that every definition evaluates in the kernel.
-/

namespace LegalAI

/-- External-provider calls observable in the code: a chat-completion request,
an HTTP POST to the backend, and a vector similarity search. -/
inductive Call where
  | chatCompletion : String → Call
  | httpPost : String → Call
  | simSearch : String → Call
deriving DecidableEq, Repr

/-- A loaded FAISS index: given a query and k, similarity_search returns the
page contents of the retrieved chunks, or raises (Except.error). -/
abbrev Store := String → Nat → Except String (List String)

/-- Python str.strip with no argument: remove leading and trailing
whitespace. -/
def pyStrip (s : String) : String :=
  String.mk (((s.data.dropWhile Char.isWhitespace).reverse.dropWhile
    Char.isWhitespace).reverse)

/-- Python slicing s[:n]: the first n characters. -/
def strTake (s : String) (n : Nat) : String :=
  String.mk (s.data.take n)

/-- Python str.lower for ASCII strings. -/
def pyLower (s : String) : String :=
  String.mk (s.data.map Char.toLower)

/-- Python str.isdigit for ASCII strings: nonempty and all characters are
decimal digits. -/
def pyIsdigit (s : String) : Bool :=
  !s.data.isEmpty && s.data.all Char.isDigit

/-- Python str.title for ASCII strings: the first character of each run of
letters is uppercased, the rest lowercased. -/
def pyTitleAux : Bool → List Char → List Char
  | _, [] => []
  | prevAlpha, c :: cs =>
    let c2 := if c.isAlpha then (if prevAlpha then c.toLower else c.toUpper) else c
    c2 :: pyTitleAux c.isAlpha cs

/-- Python str.title lifted to strings. -/
def pyTitle (s : String) : String :=
  String.mk (pyTitleAux false s.data)

/-- Whether pat occurs as an initial segment of l. -/
def matchesAt : List Char → List Char → Bool
  | [], _ => true
  | _ :: _, [] => false
  | a :: as, b :: bs => a == b && matchesAt as bs

/-- Whether pat occurs as a contiguous run anywhere in l. -/
def occursIn (pat : List Char) : List Char → Bool
  | [] => matchesAt pat []
  | c :: cs => matchesAt pat (c :: cs) || occursIn pat cs

/-- Python substring test (pat in s). -/
def strContains (s pat : String) : Bool :=
  occursIn pat.data s.data

/-- Python "\n\n".join over a list of strings. -/
def joinWith (sep : String) : List String → String
  | [] => ""
  | [x] => x
  | x :: y :: rest => x ++ sep ++ joinWith sep (y :: rest)

namespace RagQA

/-- Embeds search_knowledge_base of rag_knowledge/rag_qa_assistant.py: iterate
over the loaded FAISS stores, extending the result list with each store's
similarity_search output.  The identical inline loop appears in rag_query of
gradio_app.py.  A raise in any store's search propagates. -/
def search_knowledge_base : List Store → String → Nat → Except String (List String)
  | [], _, _ => Except.ok []
  | s :: rest, query, top_k =>
    match s query top_k with
    | Except.error e => Except.error e
    | Except.ok docs =>
      match search_knowledge_base rest query top_k with
      | Except.error e => Except.error e
      | Except.ok more => Except.ok (docs ++ more)

/-- Embeds the f-string prompt built inside legal_rag_assistant of
rag_knowledge/rag_qa_assistant.py. -/
def ragPrompt (context query : String) : String :=
  "\n    You are a professional Indian legal research assistant.\n    Use the following legal context to answer concisely and cite relevant Acts or Sections if possible.\n\n    Context:\n    " ++ context ++ "\n\n    Question:\n    " ++ query ++ "\n\n    Answer:\n    "

/-- Embeds legal_rag_assistant of rag_knowledge/rag_qa_assistant.py.  The
blank-input guard returns the warning; the knowledge-base search runs OUTSIDE
the try block, so a search exception propagates (Except.error); only the chat
completion is guarded, its exception becoming a warning string. -/
def legal_rag_assistant (stores : List Store) (chat : String → Except String String)
    (query : String) : Except String (String × List Call) :=
  if pyStrip query == "" then
    Except.ok ("⚠️ Please enter a legal or policy question.", [])
  else
    match search_knowledge_base stores query 3 with
    | Except.error e => Except.error e
    | Except.ok docs =>
      let context := if docs.isEmpty then "No matching legal data found."
                     else joinWith "\n\n" docs
      let prompt := ragPrompt context query
      match chat prompt with
      | Except.ok content =>
        Except.ok (pyStrip content, [Call.simSearch query, Call.chatCompletion prompt])
      | Except.error e =>
        Except.ok ("🚨 Error generating answer: " ++ e,
                   [Call.simSearch query, Call.chatCompletion prompt])

end RagQA

namespace App

/-- Embeds the f-string prompt built inside legal_ai_assistant of app.py. -/
def qaPrompt (query : String) : String :=
  "\n        You are a professional legal assistant with expertise in law, compliance, and policy.\n        Provide accurate, concise, and neutral guidance.\n        If the question is not about law or policy, politely decline to answer.\n\n        Question: " ++ query ++ "\n        "

/-- Embeds legal_ai_assistant of app.py: blank-input guard, then a guarded
chat-completion call whose exception becomes a warning string. -/
def legal_ai_assistant (chat : String → Except String String) (query : String) :
    String × List Call :=
  if pyStrip query == "" then
    ("⚠️ Please enter a legal or policy question.", [])
  else
    match chat (qaPrompt query) with
    | Except.ok content => (pyStrip content, [Call.chatCompletion (qaPrompt query)])
    | Except.error e => ("🚨 Error: " ++ e, [Call.chatCompletion (qaPrompt query)])

/-- The observable parts of the backend HTTP response used by
analyze_text_input of app.py: status code, raw body text, and the summary and
classification fields of the decoded JSON body. -/
structure BackendResponse where
  status_code : Nat
  text : String
  summary : Option String
  classification : Option String
deriving DecidableEq, Repr

/-- Embeds analyze_text_input of app.py: blank-input guard, then a guarded
POST to the backend; a 200 response is formatted as markdown with defaults for
missing fields, a non-200 response surfaces the status code and body, and an
exception becomes a connection-error string. -/
def analyze_text_input (post : String → Except String BackendResponse)
    (text : String) : String × List Call :=
  if pyStrip text == "" then
    ("⚠️ Please enter or upload some legal text.", [])
  else
    match post text with
    | Except.ok r =>
      (if r.status_code == 200 then
        "### 🧾 Summary\n" ++ r.summary.getD "No summary available." ++
          "\n\n### 🏷️ Classification\n**" ++
          r.classification.getD "Unclassified Document" ++ "**"
      else
        "❌ Backend Error (" ++ toString r.status_code ++ "): " ++ r.text,
      [Call.httpPost text])
    | Except.error e =>
      ("🚨 Connection Error: Could not connect to backend.\n\n**Details:** " ++ e,
       [Call.httpPost text])

/-- Embeds analyze_pdf of app.py: PDF extraction (an oracle that may raise) is
guarded, an extraction failure becoming a warning string; empty extracted text
returns the no-readable-text warning; otherwise delegates to
analyze_text_input. -/
def analyze_pdf (extract : Except String String)
    (post : String → Except String BackendResponse) : String × List Call :=
  match extract with
  | Except.error e => ("⚠️ Failed to process PDF: " ++ e, [])
  | Except.ok text =>
    if pyStrip text == "" then ("⚠️ No readable text found in PDF.", [])
    else analyze_text_input post text

end App

namespace GradioApp

/-- A record of users.json in gradio_app.py: email, stored bcrypt hash,
contact number, role. -/
structure UserRecord where
  email : String
  password : String
  contact : String
  role : String
deriving DecidableEq, Repr

/-- The flat-file state touched by gradio_app.py: the contents of users.json
(none when the file is absent; insertion-ordered association list, matching a
Python dict) and the contents of remembered_user.json (email, role; none when
absent). -/
structure FS where
  users : Option (List (String × UserRecord))
  remembered : Option (String × String)
deriving DecidableEq, Repr

/-- A gr.update() value: visible set to some b, or an empty update. -/
structure UIUpdate where
  visible : Option Bool
deriving DecidableEq, Repr

/-- Embeds load_users of gradio_app.py: the parsed file when it exists, else
the empty dict. -/
def load_users (fs : FS) : List (String × UserRecord) :=
  fs.users.getD []

/-- Embeds register_user of gradio_app.py: reject if any field is falsy;
reject if the contact is not a 10-digit string; reject if the username is
already a key of the user file; otherwise hash the password, add the record
and rewrite the file. -/
def register_user (hashpw : String → String) (fs : FS)
    (username email password contact role : String) : String × FS :=
  if username == "" || email == "" || password == "" ||
      contact == "" || role == "" then
    ("⚠️ Please fill all fields.", fs)
  else if !(pyIsdigit contact && contact.data.length == 10) then
    ("⚠️ Enter a valid 10-digit contact number.", fs)
  else
    if (load_users fs).any (fun p => p.1 == username) then
      ("❌ Username already exists.", fs)
    else
      ("✅ Registration successful! Please go to Login tab.",
       ⟨some (load_users fs ++ [(username, ⟨email, hashpw password, contact, role⟩)]),
        fs.remembered⟩)

/-- Embeds login_user of gradio_app.py: scan the user file in insertion order;
at the FIRST record whose email matches and whose role matches
case-insensitively, return success or the incorrect-password failure according
to bcrypt verification; if no record matches, return the invalid-email-or-role
failure. -/
def login_user (checkpw : String → String → Bool)
    (users : List (String × UserRecord)) (email password role : String) :
    Bool × String :=
  match users.find? (fun p =>
      p.2.email == email && pyLower p.2.role == pyLower role) with
  | some (username, data) =>
    if checkpw password data.password then
      (true, "✅ Welcome " ++ username ++ " (" ++ pyTitle role ++ ")!")
    else
      (false, "❌ Incorrect password.")
  | none => (false, "❌ Invalid email or role.")

/-- Embeds handle_login of gradio_app.py: on success, write
remembered_user.json (only when remember is set) and swap the section
visibilities; on failure, empty updates and the untouched state. -/
def handle_login (checkpw : String → String → Bool) (fs : FS)
    (email password role : String) (remember : Bool) :
    (UIUpdate × UIUpdate × String) × FS :=
  match login_user checkpw (load_users fs) email password role with
  | (true, msg) =>
    ((⟨some false⟩, ⟨some true⟩, msg),
     if remember then ⟨fs.users, some (email, role)⟩ else fs)
  | (false, msg) => ((⟨none⟩, ⟨none⟩, msg), fs)

/-- Embeds handle_logout of gradio_app.py: remove remembered_user.json when it
exists, and in every case show the login section and hide the legal
section. -/
def handle_logout (fs : FS) : (UIUpdate × UIUpdate) × FS :=
  ((⟨some true⟩, ⟨some false⟩), ⟨fs.users, none⟩)

/-- Embeds rag_query of gradio_app.py, before the surrounding try is applied:
no blank-input guard; missing vectorstore folder yields the no-data warning;
the identical search loop is search_knowledge_base with k = 3; empty results
yield the no-relevant-info warning; otherwise concatenate the chunks, build
the prompt, call the chat model and format the answer with a 1000-character
source excerpt.  Any raise (search or chat) propagates to the wrapper. -/
def rag_query_body (vectorstoreExists : Bool) (stores : List Store)
    (chat : String → Except String String) (question : String) :
    Except String (String × List Call) :=
  if !vectorstoreExists then
    Except.ok ("⚠️ No RAG data found.", [])
  else
    match RagQA.search_knowledge_base stores question 3 with
    | Except.error e => Except.error e
    | Except.ok docs =>
      if docs.isEmpty then
        Except.ok ("⚠️ No relevant info.", [Call.simSearch question])
      else
        let context := joinWith "\n\n" docs
        let prompt := "Based on this legal context:\n" ++ context ++
          "\n\nQuestion: " ++ question
        match chat prompt with
        | Except.error e => Except.error e
        | Except.ok content =>
          Except.ok ("### ⚖️ Legal Answer\n" ++ pyStrip content ++
                       "\n\n📚 Sources:\n" ++ strTake context 1000 ++ "...",
                     [Call.simSearch question, Call.chatCompletion prompt])

/-- Embeds rag_query of gradio_app.py: the whole body runs inside one try
whose except clause formats any exception as a RAG-error string. -/
def rag_query (vectorstoreExists : Bool) (stores : List Store)
    (chat : String → Except String String) (question : String) :
    String × List Call :=
  match rag_query_body vectorstoreExists stores chat question with
  | Except.ok r => r
  | Except.error e => ("🚨 RAG Error: " ++ e, [])

end GradioApp

namespace Main

/-- Embeds the TextRequest pydantic model of main.py.  Field defaults:
summarize = False, use_openai = False, use_huggingface = True. -/
structure TextRequest where
  text : String
  summarize : Bool
  use_openai : Bool
  use_huggingface : Bool
deriving DecidableEq, Repr

/-- A TextRequest built from a body that supplies only the text field, every
flag taking its declared default. -/
def TextRequest.ofText (text : String) : TextRequest :=
  ⟨text, false, false, true⟩

/-- Embeds extract_text_from_pdf of main.py: the extraction oracle's output is
stripped; an exception becomes an error-prefixed string (the try covers the
whole body). -/
def extract_text_from_pdf (pdf : Except String String) : String :=
  match pdf with
  | Except.ok t => pyStrip t
  | Except.error e => "Error extracting text: " ++ e

/-- Embeds classify_document of main.py: the SageMaker oracle returns the
optional label field of the decoded response, or raises; a missing label
defaults to Unclassified, an exception becomes an error string. -/
def classify_document (sagemaker : String → Except String (Option String))
    (text : String) : String :=
  match sagemaker text with
  | Except.ok lbl => lbl.getD "Unclassified"
  | Except.error e => "Error (SageMaker): " ++ e

/-- Embeds summarize_with_bedrock of main.py: a fixed placeholder string, no
external call. -/
def summarize_with_bedrock (_text : String) : String :=
  "🟡 Bedrock summarization placeholder: Integration configured but not executed (safe mode enabled — no AWS billing)."

/-- Embeds summarize_with_huggingface of main.py: run the local pipeline on
the first 2000 characters; an exception becomes an error string. -/
def summarize_with_huggingface (hf : String → Except String String)
    (text : String) : String :=
  match hf (strTake text 2000) with
  | Except.ok s => s
  | Except.error e => "Error (Hugging Face): " ++ e

/-- Embeds summarize_with_openai of main.py: when no client is configured
return the key-not-set string; otherwise a guarded chat call on the first 4000
characters, the reply stripped, an exception becoming an error string. -/
def summarize_with_openai (client : Option (String → Except String String))
    (text : String) : String :=
  match client with
  | none => "OpenAI API key not set."
  | some chat =>
    match chat (strTake text 4000) with
    | Except.ok s => pyStrip s
    | Except.error e => "Error (OpenAI): " ++ e

/-- The JSON object returned by the analyze endpoints of main.py: exactly the
two keys classification and summary. -/
structure AnalyzeResponse where
  classification : String
  summary : String
deriving DecidableEq, Repr

/-- Embeds the POST /analyze_text handler of main.py: strip the text, raise
HTTPException 400 when empty (modelled as Except.error with the status and
detail), classify, and dispatch summarization on the flags — Hugging Face
first, then OpenAI, else the Bedrock placeholder; without the summarize flag
the summary is the literal skip placeholder. -/
def analyze_text (sagemaker : String → Except String (Option String))
    (hf : String → Except String String)
    (client : Option (String → Except String String))
    (payload : TextRequest) : Except (Nat × String) AnalyzeResponse :=
  let text := pyStrip payload.text
  if text == "" then
    Except.error (400, "Empty text provided.")
  else
    let classification := classify_document sagemaker text
    let summary :=
      if payload.summarize then
        if payload.use_huggingface then summarize_with_huggingface hf text
        else if payload.use_openai then summarize_with_openai client text
        else summarize_with_bedrock text
      else "Summarization skipped."
    Except.ok ⟨classification, summary⟩

/-- Embeds the POST /analyze_pdf handler (analyze_document) of main.py:
extract the text, return a 400 JSON error when the extracted text contains the
substring Error, otherwise classify and dispatch summarization exactly as
analyze_text does. -/
def analyze_document (pdf : Except String String)
    (sagemaker : String → Except String (Option String))
    (hf : String → Except String String)
    (client : Option (String → Except String String))
    (summarize use_openai use_huggingface : Bool) :
    Except (Nat × String) AnalyzeResponse :=
  let text := extract_text_from_pdf pdf
  if strContains text "Error" then
    Except.error (400, text)
  else
    let classification := classify_document sagemaker text
    let summary :=
      if summarize then
        if use_huggingface then summarize_with_huggingface hf text
        else if use_openai then summarize_with_openai client text
        else summarize_with_bedrock text
      else "Summarization skipped."
    Except.ok ⟨classification, summary⟩

end Main

/-- A chat oracle that always answers with the given string. -/
def okStrFn (s : String) : String → Except String String :=
  fun _ => Except.ok s

/-- A chat oracle that always raises the given exception message. -/
def errStrFn (e : String) : String → Except String String :=
  fun _ => Except.error e

/-- A backend-post oracle that always raises the given exception message. -/
def errPostFn (e : String) : String → Except String App.BackendResponse :=
  fun _ => Except.error e

/-- A FAISS store whose similarity search always returns the given chunks. -/
def okStore (docs : List String) : Store :=
  fun _ _ => Except.ok docs

/-- A FAISS store whose similarity search always returns no chunks. -/
def emptyStore : Store :=
  fun _ _ => Except.ok []

/-- A FAISS store whose similarity search always raises. -/
def errStore (e : String) : Store :=
  fun _ _ => Except.error e

/-- A password-verification oracle for plain-text stored hashes: the password
verifies exactly when it equals the stored value (hash function = identity). -/
def eqCheckpw : String → String → Bool :=
  fun p h => p == h

/-- The identity hash paired with eqCheckpw. -/
def idHash : String → String :=
  fun p => p

/-- A SageMaker oracle that always returns the given label. -/
def okSagemaker (lbl : String) : String → Except String (Option String) :=
  fun _ => Except.ok (some lbl)

/-- A demonstration user record for the gradio_app user store. -/
def aliceRec : GradioApp.UserRecord :=
  ⟨"alice@example.com", "pw1", "1234567890", "Lawyer"⟩

/-- A demonstration user file with the single key alice. -/
def demoFS : GradioApp.FS :=
  ⟨some [("alice", aliceRec)], none⟩

/-- A user file holding two distinct usernames that share an email and a role
but have different stored hashes — a state the registration path can create,
since only usernames are unique keys. -/
def dupUsers : List (String × GradioApp.UserRecord) :=
  [("u1", ⟨"e@x.com", "pw1", "1111111111", "Lawyer"⟩),
   ("u2", ⟨"e@x.com", "pw2", "2222222222", "Lawyer"⟩)]

/-- If every loaded store returns no documents for the query, the combined
search returns the empty list without raising. -/
theorem search_knowledge_base_all_empty (stores : List Store) (q : String)
    (k : Nat) (h : ∀ s ∈ stores, s q k = Except.ok []) :
    RagQA.search_knowledge_base stores q k = Except.ok [] := by
  induction stores with
  | nil => rfl
  | cons s rest ih =>
    have hs : s q k = Except.ok [] := h s (List.mem_cons_self s rest)
    have hr := ih (fun t ht => h t (List.mem_cons_of_mem s ht))
    simp [RagQA.search_knowledge_base, hs, hr]

/-- C6: for every filesystem state, handle_logout leaves the remembered-session
file absent, returns the same UI state in every case (login section visible,
legal section hidden), is a filesystem no-op when the file is already absent,
and running it twice equals running it once. -/
theorem c6_logout_removes_and_idempotent (fs : GradioApp.FS) :
    (GradioApp.handle_logout fs).2.remembered = none
  ∧ (GradioApp.handle_logout fs).1 = (⟨some true⟩, ⟨some false⟩)
  ∧ (fs.remembered = none → (GradioApp.handle_logout fs).2 = fs)
  ∧ GradioApp.handle_logout (GradioApp.handle_logout fs).2
      = GradioApp.handle_logout fs := by
  refine ⟨rfl, rfl, ?_, rfl⟩
  intro h
  cases fs
  simp_all [GradioApp.handle_logout]

/-- Witness for C6 at the state with no files: the remembered file is absent
and logout leaves the state unchanged. -/
theorem c6_logout_witness :
    ((⟨none, none⟩ : GradioApp.FS).remembered = none)
  ∧ (GradioApp.handle_logout ⟨none, none⟩).2 = (⟨none, none⟩ : GradioApp.FS) :=
  ⟨rfl, (c6_logout_removes_and_idempotent ⟨none, none⟩).2.2.1 rfl⟩

/-- C7: for every request to POST /analyze_text whose text is non-empty after
stripping, the response is exactly a classification/summary object whose
classification is the classifier's output; with the summarize flag off the
summary is the literal skip placeholder, and with it on the summary is the
output of the provider selected by the boolean flags, returned verbatim. -/
theorem c7_analyze_text_response (sm : String → Except String (Option String))
    (hf : String → Except String String)
    (cl : Option (String → Except String String)) (payload : Main.TextRequest)
    (h : (pyStrip payload.text == "") = false) :
    Main.analyze_text sm hf cl payload
      = Except.ok ⟨Main.classify_document sm (pyStrip payload.text),
          if payload.summarize then
            if payload.use_huggingface then
              Main.summarize_with_huggingface hf (pyStrip payload.text)
            else if payload.use_openai then
              Main.summarize_with_openai cl (pyStrip payload.text)
            else Main.summarize_with_bedrock (pyStrip payload.text)
          else "Summarization skipped."⟩ := by
  simp [Main.analyze_text, h]

/-- Witness for C7 at a concrete non-summarizing request. -/
theorem c7_analyze_text_witness :
    ((pyStrip "hello" == "") = false)
  ∧ Main.analyze_text (okSagemaker "Contract") (okStrFn "SUM") none
      ⟨"hello", false, false, true⟩
      = Except.ok ⟨Main.classify_document (okSagemaker "Contract") (pyStrip "hello"),
                   "Summarization skipped."⟩ :=
  ⟨by decide,
   c7_analyze_text_response (okSagemaker "Contract") (okStrFn "SUM") none
     ⟨"hello", false, false, true⟩ (by decide)⟩

/-- C10: in both backend handlers, with summarize on, use_huggingface takes
precedence over use_openai; OpenAI runs only when use_huggingface is off and
use_openai is on; the Bedrock placeholder runs only when both are off; and a
request leaving use_huggingface at its declared default (true) while setting
use_openai is still summarized by Hugging Face. -/
theorem c10_summarizer_dispatch (sm : String → Except String (Option String))
    (hf : String → Except String String)
    (cl : Option (String → Except String String)) (text : String) (o : Bool)
    (h : (pyStrip text == "") = false)
    (hne : strContains (pyStrip text) "Error" = false) :
    (Main.analyze_text sm hf cl ⟨text, true, o, true⟩
       = Except.ok ⟨Main.classify_document sm (pyStrip text),
                    Main.summarize_with_huggingface hf (pyStrip text)⟩)
  ∧ (Main.analyze_text sm hf cl ⟨text, true, true, false⟩
       = Except.ok ⟨Main.classify_document sm (pyStrip text),
                    Main.summarize_with_openai cl (pyStrip text)⟩)
  ∧ (Main.analyze_text sm hf cl ⟨text, true, false, false⟩
       = Except.ok ⟨Main.classify_document sm (pyStrip text),
                    Main.summarize_with_bedrock (pyStrip text)⟩)
  ∧ (Main.TextRequest.ofText text).use_huggingface = true
  ∧ (Main.analyze_text sm hf cl
        ⟨text, true, true, (Main.TextRequest.ofText text).use_huggingface⟩
       = Except.ok ⟨Main.classify_document sm (pyStrip text),
                    Main.summarize_with_huggingface hf (pyStrip text)⟩)
  ∧ (Main.analyze_document (Except.ok text) sm hf cl true o true
       = Except.ok ⟨Main.classify_document sm (pyStrip text),
                    Main.summarize_with_huggingface hf (pyStrip text)⟩)
  ∧ (Main.analyze_document (Except.ok text) sm hf cl true true false
       = Except.ok ⟨Main.classify_document sm (pyStrip text),
                    Main.summarize_with_openai cl (pyStrip text)⟩)
  ∧ (Main.analyze_document (Except.ok text) sm hf cl true false false
       = Except.ok ⟨Main.classify_document sm (pyStrip text),
                    Main.summarize_with_bedrock (pyStrip text)⟩) := by
  refine ⟨?_, ?_, ?_, rfl, ?_, ?_, ?_, ?_⟩ <;>
    simp [Main.analyze_text, Main.analyze_document, Main.extract_text_from_pdf,
      Main.TextRequest.ofText, h, hne]

/-- Witness for C10: a summarizing request with both flags on is handled by
Hugging Face. -/
theorem c10_summarizer_dispatch_witness :
    ((pyStrip "sample text" == "") = false)
  ∧ (strContains (pyStrip "sample text") "Error" = false)
  ∧ Main.analyze_text (okSagemaker "Contract") (okStrFn "SUM") none
      ⟨"sample text", true, true, true⟩
      = Except.ok ⟨Main.classify_document (okSagemaker "Contract") (pyStrip "sample text"),
                   Main.summarize_with_huggingface (okStrFn "SUM") (pyStrip "sample text")⟩ :=
  ⟨by decide, by decide,
   (c10_summarizer_dispatch (okSagemaker "Contract") (okStrFn "SUM") none
      "sample text" true (by decide) (by decide)).1⟩

/-- C3 counterexample: a registration request whose username alice is already
a key of the user file but whose contact is not 10 digits returns the
contact-validation message, not the already-exists message (the file is still
unchanged). -/
theorem c3_existing_username_counterexample :
    ((GradioApp.load_users demoFS).any (fun p => p.1 == "alice") = true)
  ∧ GradioApp.register_user idHash demoFS "alice" "a@x.com" "pw" "123" "Lawyer"
      = ("⚠️ Enter a valid 10-digit contact number.", demoFS)
  ∧ ("⚠️ Enter a valid 10-digit contact number." ≠ "❌ Username already exists.") := by
  refine ⟨by decide, by decide, by decide⟩

/-- C3 (amended): a registration request that passes the field-presence and
contact-format checks and whose username is already a key returns the
already-exists message with the file unchanged; and whenever the username is
already a key, the file after the call equals the file before it, whatever
message is returned. -/
theorem c3_existing_username_amended (hashpw : String → String)
    (fs : GradioApp.FS) (username email password contact role : String)
    (hmem : (GradioApp.load_users fs).any (fun p => p.1 == username) = true) :
    ((username == "") = false → (email == "") = false → (password == "") = false →
     (contact == "") = false → (role == "") = false →
     (pyIsdigit contact && contact.data.length == 10) = true →
     GradioApp.register_user hashpw fs username email password contact role
       = ("❌ Username already exists.", fs))
  ∧ (GradioApp.register_user hashpw fs username email password contact role).2 = fs := by
  constructor
  · intro hu he hp hc hr hvalid
    simp at hvalid
    simp [GradioApp.register_user, hu, he, hp, hc, hr, hvalid, hmem]
  · cases hb : (username == "" || email == "" || password == "" ||
        contact == "" || role == "") with
    | false =>
      simp [GradioApp.register_user, hb, hmem]
      split <;> rfl
    | true => simp [GradioApp.register_user, hb, hmem]

/-- Witness for C3 at a valid duplicate-username request against the
demonstration file. -/
theorem c3_existing_username_witness :
    ((GradioApp.load_users demoFS).any (fun p => p.1 == "alice") = true)
  ∧ GradioApp.register_user idHash demoFS "alice" "a@x.com" "pw" "1234567890" "Lawyer"
      = ("❌ Username already exists.", demoFS) :=
  ⟨by decide,
   (c3_existing_username_amended idHash demoFS "alice" "a@x.com" "pw" "1234567890"
      "Lawyer" (by decide)).1
     (by decide) (by decide) (by decide) (by decide) (by decide) (by decide)⟩

/-- C4 counterexample: an empty contact field is not a string of exactly 10
decimal digits, yet register_user returns the fill-all-fields message, not the
valid-10-digit rejection message. -/
theorem c4_contact_validation_counterexample :
    ((pyIsdigit "" && "".data.length == 10) = false)
  ∧ GradioApp.register_user idHash demoFS "bob" "b@x.com" "pw" "" "Lawyer"
      = ("⚠️ Please fill all fields.", demoFS)
  ∧ ("⚠️ Please fill all fields." ≠ "⚠️ Enter a valid 10-digit contact number.") := by
  refine ⟨by decide, by decide, by decide⟩

/-- C4 (amended): a registration request with all five fields nonempty whose
contact is not a string of exactly 10 decimal digits gets the valid-10-digit
rejection message; for every request with an invalid contact the user file is
unchanged, and the returned message does not depend on the user-file state (the
rejection happens before any file read or write). -/
theorem c4_contact_validation_amended (hashpw : String → String)
    (fs fs2 : GradioApp.FS) (username email password contact role : String)
    (hch : (pyIsdigit contact && contact.data.length == 10) = false) :
    ((username == "") = false → (email == "") = false → (password == "") = false →
     (contact == "") = false → (role == "") = false →
     GradioApp.register_user hashpw fs username email password contact role
       = ("⚠️ Enter a valid 10-digit contact number.", fs))
  ∧ (GradioApp.register_user hashpw fs username email password contact role).2 = fs
  ∧ (GradioApp.register_user hashpw fs username email password contact role).1
      = (GradioApp.register_user hashpw fs2 username email password contact role).1 := by
  have hcond : pyIsdigit contact = false ∨ ¬contact.length = 10 := by
    cases hd : pyIsdigit contact
    · exact Or.inl rfl
    · right
      simp [hd] at hch
      exact hch
  refine ⟨?_, ?_, ?_⟩
  · intro hu he hp hc hr
    simp [GradioApp.register_user, hu, he, hp, hc, hr, hcond]
  · cases hb : (username == "" || email == "" || password == "" ||
        contact == "" || role == "") <;>
      simp [GradioApp.register_user, hb, hcond]
  · cases hb : (username == "" || email == "" || password == "" ||
        contact == "" || role == "") <;>
      simp [GradioApp.register_user, hb, hcond]

/-- Witness for C4 at a request with a 3-digit contact and all fields
nonempty. -/
theorem c4_contact_validation_witness :
    ((pyIsdigit "123" && "123".data.length == 10) = false)
  ∧ GradioApp.register_user idHash demoFS "bob" "b@x.com" "pw" "123" "Lawyer"
      = ("⚠️ Enter a valid 10-digit contact number.", demoFS) :=
  ⟨by decide,
   (c4_contact_validation_amended idHash demoFS demoFS "bob" "b@x.com" "pw" "123"
      "Lawyer" (by decide)).1
     (by decide) (by decide) (by decide) (by decide) (by decide)⟩

/-- C5 counterexample: in a user file where two usernames share an email and a
role, the record u2 matches the login request's email and role and the
supplied password does not verify against u2's stored hash — yet login_user
succeeds, because the first matching record in file order (u1) verifies. -/
theorem c5_wrong_password_counterexample :
    (∃ p ∈ dupUsers, p.2.email = "e@x.com" ∧ pyLower p.2.role = pyLower "Lawyer"
       ∧ eqCheckpw "pw1" p.2.password = false)
  ∧ (GradioApp.login_user eqCheckpw dupUsers "e@x.com" "pw1" "Lawyer").1 = true := by
  refine ⟨by decide, by decide⟩

/-- C5 (amended): when the FIRST record in file order whose email matches and
whose role matches case-insensitively has a stored hash against which the
supplied password does not verify, login_user returns failure with the
incorrect-password message, and handle_login leaves the whole filesystem state
(user file and remembered-session file) unchanged, returning empty UI
updates. -/
theorem c5_wrong_password_amended (checkpw : String → String → Bool)
    (fs : GradioApp.FS) (email password role username : String)
    (data : GradioApp.UserRecord)
    (hfind : (GradioApp.load_users fs).find? (fun p =>
        p.2.email == email && pyLower p.2.role == pyLower role)
      = some (username, data))
    (hpw : checkpw password data.password = false) :
    GradioApp.login_user checkpw (GradioApp.load_users fs) email password role
      = (false, "❌ Incorrect password.")
  ∧ ∀ remember, GradioApp.handle_login checkpw fs email password role remember
      = ((⟨none⟩, ⟨none⟩, "❌ Incorrect password."), fs) := by
  have h1 : GradioApp.login_user checkpw (GradioApp.load_users fs) email password role
      = (false, "❌ Incorrect password.") := by
    simp [GradioApp.login_user, hfind, hpw]
  refine ⟨h1, ?_⟩
  intro remember
  simp [GradioApp.handle_login, h1]

/-- Witness for C5: a wrong password against the demonstration file, with the
role given in lower case to exercise the case-insensitive comparison. -/
theorem c5_wrong_password_witness :
    ((GradioApp.load_users demoFS).find? (fun p =>
        p.2.email == "alice@example.com" && pyLower p.2.role == pyLower "lawyer")
       = some ("alice", aliceRec))
  ∧ (eqCheckpw "wrong" aliceRec.password = false)
  ∧ GradioApp.handle_login eqCheckpw demoFS "alice@example.com" "wrong" "lawyer" true
      = ((⟨none⟩, ⟨none⟩, "❌ Incorrect password."), demoFS) :=
  ⟨by decide, by decide,
   (c5_wrong_password_amended eqCheckpw demoFS "alice@example.com" "wrong" "lawyer"
      "alice" aliceRec (by decide) (by decide)).2 true⟩

/-- C9 counterexample: a fully successful login with the remember checkbox
unset leaves the remembered-session file absent — it is not overwritten. -/
theorem c9_remember_flag_counterexample :
    ((GradioApp.login_user eqCheckpw (GradioApp.load_users demoFS)
        "alice@example.com" "pw1" "Lawyer").1 = true)
  ∧ (GradioApp.handle_login eqCheckpw demoFS "alice@example.com" "pw1" "Lawyer"
       false).2.remembered = none := by
  refine ⟨by decide, by decide⟩

/-- C9 (amended): on every successful login with the remember option set, the
remembered-session file is overwritten with the logged-in email and role, and
the user file is untouched. -/
theorem c9_remember_flag_amended (checkpw : String → String → Bool)
    (fs : GradioApp.FS) (email password role : String)
    (h : (GradioApp.login_user checkpw (GradioApp.load_users fs)
        email password role).1 = true) :
    (GradioApp.handle_login checkpw fs email password role true).2
      = ⟨fs.users, some (email, role)⟩ := by
  rcases hl : GradioApp.login_user checkpw (GradioApp.load_users fs)
      email password role with ⟨b, msg⟩
  rw [hl] at h
  simp at h
  subst h
  simp [GradioApp.handle_login, hl]

/-- Witness for C9: a successful remembered login against the demonstration
file overwrites the remembered-session file. -/
theorem c9_remember_flag_witness :
    ((GradioApp.login_user eqCheckpw (GradioApp.load_users demoFS)
        "alice@example.com" "pw1" "Lawyer").1 = true)
  ∧ (GradioApp.handle_login eqCheckpw demoFS "alice@example.com" "pw1" "Lawyer"
       true).2 = ⟨demoFS.users, some ("alice@example.com", "Lawyer")⟩ :=
  ⟨by decide,
   c9_remember_flag_amended eqCheckpw demoFS "alice@example.com" "pw1" "Lawyer"
     (by decide)⟩

/-- C1 counterexample: on a whitespace-only question, rag_query of
gradio_app.py runs the similarity search and the chat completion and returns
the formatted answer — it does not return a please-enter-input warning and it
does call external providers. -/
theorem c1_rag_query_blank_counterexample :
    ((pyStrip " " == "") = true)
  ∧ GradioApp.rag_query true [okStore ["chunk"]] (okStrFn "ANSWER") " "
      = ("### ⚖️ Legal Answer\nANSWER\n\n📚 Sources:\nchunk...",
         [Call.simSearch " ",
          Call.chatCompletion "Based on this legal context:\nchunk\n\nQuestion:  "])
  ∧ ("### ⚖️ Legal Answer\nANSWER\n\n📚 Sources:\nchunk..."
       ≠ "⚠️ Please enter a legal or policy question.") := by
  refine ⟨by decide, by decide, by decide⟩

/-- C1 (amended): on empty or whitespace-only input, legal_ai_assistant,
analyze_text_input and legal_rag_assistant return their designated
please-enter-input warning with an empty external-call trace; rag_query of
gradio_app.py has no such guard and proceeds to the search. -/
theorem c1_blank_input_guarded (q : String) (h : (pyStrip q == "") = true)
    (chat : String → Except String String)
    (post : String → Except String App.BackendResponse) (stores : List Store) :
    App.legal_ai_assistant chat q = ("⚠️ Please enter a legal or policy question.", [])
  ∧ App.analyze_text_input post q = ("⚠️ Please enter or upload some legal text.", [])
  ∧ RagQA.legal_rag_assistant stores chat q
      = Except.ok ("⚠️ Please enter a legal or policy question.", []) := by
  refine ⟨?_, ?_, ?_⟩ <;>
    simp [App.legal_ai_assistant, App.analyze_text_input,
      RagQA.legal_rag_assistant, h]

/-- Witness for C1 at a three-space input. -/
theorem c1_blank_input_witness :
    ((pyStrip "   " == "") = true)
  ∧ App.legal_ai_assistant (okStrFn "ANS") "   "
      = ("⚠️ Please enter a legal or policy question.", []) :=
  ⟨by decide,
   (c1_blank_input_guarded "   " (by decide) (okStrFn "ANS") (errPostFn "down") []).1⟩

/-- C2 counterexample: an exception raised by the similarity search inside
legal_rag_assistant escapes the operation instead of being formatted into a
user-facing warning string, because the search runs outside the try block. -/
theorem c2_search_exception_escape :
    RagQA.legal_rag_assistant [errStore "boom"] (okStrFn "answer")
      "What is the IT Act?" = Except.error "boom" := by
  rfl

/-- C2 (amended): exceptions from external calls are absorbed into
warning-prefixed user-facing strings by every guard in the embedded entry
points — the Groq chat call in legal_ai_assistant, the backend POST in
analyze_text_input, the PDF extraction in analyze_pdf, the whole body of
rag_query, and the chat call in legal_rag_assistant — with the one exception
of the knowledge-base search in legal_rag_assistant, which runs outside its
guard, so a search exception escapes that operation. -/
theorem c2_error_absorption (e q : String) (h : (pyStrip q == "") = false)
    (post : String → Except String App.BackendResponse)
    (chat : String → Except String String) :
    (App.legal_ai_assistant (errStrFn e) q).1 = "🚨 Error: " ++ e
  ∧ (App.analyze_text_input (errPostFn e) q).1
      = "🚨 Connection Error: Could not connect to backend.\n\n**Details:** " ++ e
  ∧ App.analyze_pdf (Except.error e) post = ("⚠️ Failed to process PDF: " ++ e, [])
  ∧ (GradioApp.rag_query true [errStore e] chat q).1 = "🚨 RAG Error: " ++ e
  ∧ RagQA.legal_rag_assistant [] (errStrFn e) q
      = Except.ok ("🚨 Error generating answer: " ++ e,
          [Call.simSearch q,
           Call.chatCompletion (RagQA.ragPrompt "No matching legal data found." q)])
  ∧ RagQA.legal_rag_assistant [errStore e] chat q = Except.error e := by
  refine ⟨?_, ?_, ?_, ?_, ?_, ?_⟩ <;>
    simp [App.legal_ai_assistant, App.analyze_text_input, App.analyze_pdf,
      GradioApp.rag_query, GradioApp.rag_query_body, RagQA.legal_rag_assistant,
      RagQA.search_knowledge_base, errStrFn, errPostFn, errStore, h]

/-- Witness for C2 at a failing chat oracle on a non-blank question. -/
theorem c2_error_absorption_witness :
    ((pyStrip "hi" == "") = false)
  ∧ (App.legal_ai_assistant (errStrFn "api down") "hi").1 = "🚨 Error: " ++ "api down" :=
  ⟨by decide,
   (c2_error_absorption "api down" "hi" (by decide) (errPostFn "x") (okStrFn "y")).1⟩

/-- C8 counterexample: when the search over all loaded indexes returns no
documents, legal_rag_assistant does not emit a no-results message — it
substitutes a fallback context, still queries the chat model, and returns the
model's answer. -/
theorem c8_no_results_counterexample :
    RagQA.search_knowledge_base [] "What is the IT Act?" 3 = Except.ok []
  ∧ RagQA.legal_rag_assistant [] (okStrFn "MODEL ANSWER") "What is the IT Act?"
      = Except.ok ("MODEL ANSWER",
          [Call.simSearch "What is the IT Act?",
           Call.chatCompletion (RagQA.ragPrompt "No matching legal data found."
             "What is the IT Act?")])
  ∧ ("MODEL ANSWER" ≠ "⚠️ No relevant info.") := by
  refine ⟨rfl, by rfl, by decide⟩

/-- C8 (amended): when every loaded index returns no documents the search
returns the empty list without raising; rag_query of gradio_app.py then emits
the no-relevant-info message instead of an answer; legal_rag_assistant instead
substitutes the no-matching-data fallback context and still returns the chat
model's output. -/
theorem c8_no_results_amended (stores : List Store)
    (chat : String → Except String String) (q : String)
    (hall : ∀ s ∈ stores, s q 3 = Except.ok [])
    (hq : (pyStrip q == "") = false) :
    RagQA.search_knowledge_base stores q 3 = Except.ok []
  ∧ GradioApp.rag_query true stores chat q
      = ("⚠️ No relevant info.", [Call.simSearch q])
  ∧ RagQA.legal_rag_assistant stores chat q
      = Except.ok
          ((match chat (RagQA.ragPrompt "No matching legal data found." q) with
            | Except.ok content => pyStrip content
            | Except.error e => "🚨 Error generating answer: " ++ e),
           [Call.simSearch q,
            Call.chatCompletion (RagQA.ragPrompt "No matching legal data found." q)]) := by
  have hs := search_knowledge_base_all_empty stores q 3 hall
  refine ⟨hs, ?_, ?_⟩
  · simp [GradioApp.rag_query, GradioApp.rag_query_body, hs]
  · cases hchat : chat (RagQA.ragPrompt "No matching legal data found." q) <;>
      simp [RagQA.legal_rag_assistant, hs, hq, hchat]

/-- Witness for C8 at a single empty index. -/
theorem c8_no_results_witness :
    ((pyStrip "question" == "") = false)
  ∧ RagQA.search_knowledge_base [emptyStore] "question" 3 = Except.ok []
  ∧ GradioApp.rag_query true [emptyStore] (okStrFn "ANS") "question"
      = ("⚠️ No relevant info.", [Call.simSearch "question"]) :=
  ⟨by decide,
   (c8_no_results_amended [emptyStore] (okStrFn "ANS") "question"
      (by intro s hs; rw [List.mem_singleton] at hs; subst hs; rfl) (by decide)).1,
   (c8_no_results_amended [emptyStore] (okStrFn "ANS") "question"
      (by intro s hs; rw [List.mem_singleton] at hs; subst hs; rfl) (by decide)).2.1⟩

end LegalAI
